import Mathlib

/-!
Verification of the GPU linear-allocator / staging core of this repository
(`src/libs/openFrameworks/vk/BufferAllocator.h`,
 `src/libs/openFrameworks/vk/RenderContext.h`).

The allocator's mutating bodies (`setup`, `allocate`, `swap`, `free`) are only
declared in the source excerpt; they are modelled from the specification
(spec.md §3, §4.1). `map`, `stageData` and `storeDataCmd` are inline in the
headers and are embedded directly from the source. Machine integers
(`vk::DeviceSize`) are modelled as `Nat`; the null pointer as `Option.none`;
host memory as a function `Nat → Nat` from byte addresses to byte values;
undefined behavior (reading `front()`/`back()` of an empty `std::vector`) as
`Option.none` results.
-/

namespace Vk

/-- Configuration surface of the allocator (spec §6): total reservation size,
frame count `F`, and whether the memory properties are host-visible. -/
structure Settings where
  size : Nat
  frameCount : Nat
  hostVisible : Bool
deriving DecidableEq

/-- Size of one frame slot: the reservation is divided into `F` equal slots of
`S / F` bytes each (spec §3, "Reservation"). -/
def slotSize (s : Settings) : Nat :=
  s.size / s.frameCount

/-- State of `of::vk::BufferAllocator` (BufferAllocator.h:116-128): settings,
alignment, owning buffer handle, per-slot cursors `mOffsetEnd`, current mapped
address, and active virtual-frame index. Buffer handles are opaque `Nat` ids;
the host mapping of the reservation is modelled as starting at address `0`, so
slot `i` is mapped at base address `i * slotSize`. -/
structure BufferAllocator where
  settings : Settings
  mAlignment : Nat
  mBuffer : Nat
  mOffsetEnd : List Nat
  mCurrentMappedAddress : Option Nat
  mCurrentVirtualFrameIdx : Nat
deriving DecidableEq

/-- Cursor (next free in-slot offset) of the active slot. -/
def cursor (a : BufferAllocator) : Nat :=
  a.mOffsetEnd.getD a.mCurrentVirtualFrameIdx 0

/-- Absolute device offset of the active slot's base:
`slot_index * slot_size` (spec §4.1). -/
def base (a : BufferAllocator) : Nat :=
  a.mCurrentVirtualFrameIdx * slotSize a.settings

/-- Structural well-formedness maintained by `setup`/`allocate`/`swap`:
one cursor per frame slot, active index in range, positive alignment. -/
def WF (a : BufferAllocator) : Prop :=
  a.mOffsetEnd.length = a.settings.frameCount ∧
  a.mCurrentVirtualFrameIdx < a.settings.frameCount ∧
  0 < a.mAlignment

instance (a : BufferAllocator) : Decidable (WF a) := by
  unfold WF; infer_instance

/-- Modelled from the spec: the body of `BufferAllocator::setup` is not in the
source excerpt (declaration only, BufferAllocator.h:83). Per spec §4.1 it
reserves the memory once, records one cursor per slot (all starting at the
slot base, i.e. in-slot offset 0), sets the active frame to 0, and — when the
memory is host-visible — maps the whole reservation once (slot 0's base maps
to host address 0). Alignment defaults to 256 (BufferAllocator.h:118). -/
def setup (s : Settings) (buffer : Nat) : BufferAllocator :=
  { settings := s
    mAlignment := 256
    mBuffer := buffer
    mOffsetEnd := List.replicate s.frameCount 0
    mCurrentMappedAddress := if s.hostVisible then some 0 else none
    mCurrentVirtualFrameIdx := 0 }

/-- Round `n` up to the next multiple of `align` (spec §3 "Alignment":
requests are rounded up to the alignment before advancing the cursor). -/
def roundUpAlign (n align : Nat) : Nat :=
  align * ((n + align - 1) / align)

/-- Advance the active slot's cursor by `rounded` bytes and — when the memory
is host-visible — point the current mapped address at the freshly reserved
chunk (the header calls `mCurrentMappedAddress` the "current address for
writing", BufferAllocator.h:126). -/
def advance (a : BufferAllocator) (rounded : Nat) : BufferAllocator :=
  { a with
    mOffsetEnd := a.mOffsetEnd.set a.mCurrentVirtualFrameIdx (cursor a + rounded)
    mCurrentMappedAddress :=
      if a.settings.hostVisible then some (base a + cursor a)
      else a.mCurrentMappedAddress }

/-- Result of `BufferAllocator::allocate`: the returned `bool`, the
out-parameter `offset`, and the allocator state after the call. -/
structure AllocResult where
  success : Bool
  offset : Nat
  state : BufferAllocator
deriving DecidableEq

/-- Modelled from the spec: the body of `BufferAllocator::allocate` is not in
the source excerpt (declaration only, BufferAllocator.h:90). Per spec §4.1:
zero-byte requests are rejected as a caller error; otherwise the request is
rounded up to the alignment, and if `cursor + roundedSize > slot_size` the
call fails with no state change, else it reserves `[cursor, cursor+rounded)`
in the active slot, advances the cursor and returns the absolute device
offset (slot base + in-slot offset). On failure the out-parameter is left 0
and the state is unchanged. -/
def allocate (a : BufferAllocator) (byteCount : Nat) : AllocResult :=
  if byteCount = 0 then ⟨false, 0, a⟩
  else if cursor a + roundUpAlign byteCount a.mAlignment > slotSize a.settings then
    ⟨false, 0, a⟩
  else
    ⟨true, base a + cursor a, advance a (roundUpAlign byteCount a.mAlignment)⟩

/-- Modelled from the spec: the body of `BufferAllocator::swap` is not in the
source excerpt (declaration only, BufferAllocator.h:92). Per spec §3/§4.1:
the active-frame index advances by one modulo `F`, the slot that becomes
active has its cursor reset to the slot base, and the current mapped address
becomes that slot's mapped base pointer when host-visible, absent
otherwise. -/
def swap (a : BufferAllocator) : BufferAllocator :=
  { a with
    mCurrentVirtualFrameIdx := (a.mCurrentVirtualFrameIdx + 1) % a.settings.frameCount
    mOffsetEnd := a.mOffsetEnd.set ((a.mCurrentVirtualFrameIdx + 1) % a.settings.frameCount) 0
    mCurrentMappedAddress :=
      if a.settings.hostVisible then
        some (((a.mCurrentVirtualFrameIdx + 1) % a.settings.frameCount) * slotSize a.settings)
      else none }

/-- Modelled from the spec: the body of `BufferAllocator::free` is not in the
source excerpt (declaration only, BufferAllocator.h:98). Per spec §4.1 it
resets the given frame slot's cursor; it frees no GPU memory. -/
def free (a : BufferAllocator) (frame : Nat) : BufferAllocator :=
  { a with mOffsetEnd := a.mOffsetEnd.set frame 0 }

/-- Embedded from source (BufferAllocator.h:101-104):
`map` writes `mCurrentMappedAddress` to the out-pointer and returns whether it
is non-null. It reads allocator state only; it allocates nothing and returns
no modified state. `none` models the C++ null pointer. -/
def map (a : BufferAllocator) : Bool × Nat :=
  (a.mCurrentMappedAddress.isSome, a.mCurrentMappedAddress.getD 0)

/-- One mutating operation on an allocator (used to range over all states
reachable from `setup`). -/
inductive Op where
  | alloc : Nat → Op
  | swapOp : Op
  | freeOp : Nat → Op

/-- Apply one mutating operation. -/
def applyOp (a : BufferAllocator) : Op → BufferAllocator
  | Op.alloc n => (allocate a n).state
  | Op.swapOp => swap a
  | Op.freeOp k => free a k

/-- Run a sequence of mutating operations from a freshly set-up allocator. -/
def runOps (s : Settings) (buffer : Nat) (ops : List Op) : BufferAllocator :=
  ops.foldl applyOp (setup s buffer)

/-- `of::vk::TransferSrcData` (RenderContext.h:33-38): the item's bytes are a
function from byte index to byte value (the C++ `void * pData`). -/
structure TransferSrcData where
  pData : Nat → Nat
  numElements : Nat
  numBytesPerElement : Nat

instance : Inhabited TransferSrcData := ⟨⟨fun _ => 0, 0, 0⟩⟩

/-- `::vk::BufferCopy`: `{srcOffset, dstOffset, size}` (member order as in
the Vulkan structure, initialised `{0, 0, 0}` at RenderContext.h:231). -/
structure BufferCopy where
  srcOffset : Nat
  dstOffset : Nat
  size : Nat
deriving DecidableEq

instance : Inhabited BufferCopy := ⟨⟨0, 0, 0⟩⟩

/-- `of::vk::BufferRegion` (RenderContext.h:40-46). -/
structure BufferRegion where
  buffer : Nat
  offset : Nat
  range : Nat
  numElements : Nat
deriving DecidableEq

instance : Inhabited BufferRegion := ⟨⟨0, 0, 0, 0⟩⟩

/-- The two `::vk::AccessFlagBits` values used by `storeDataCmd`. -/
inductive AccessFlagBits where
  | eTransferWrite : AccessFlagBits
  | eShaderRead : AccessFlagBits
deriving DecidableEq

/-- `VK_QUEUE_FAMILY_IGNORED` (`~0u`). -/
def VK_QUEUE_FAMILY_IGNORED : Nat := 4294967295

/-- `::vk::BufferMemoryBarrier` with the fields `storeDataCmd` sets
(RenderContext.h:284-293). -/
structure BufferMemoryBarrier where
  srcAccessMask : AccessFlagBits
  dstAccessMask : AccessFlagBits
  srcQueueFamilyIndex : Nat
  dstQueueFamilyIndex : Nat
  buffer : Nat
  offset : Nat
  size : Nat
deriving DecidableEq

/-- Commands recorded onto the transient command buffer by `storeDataCmd`. -/
inductive Cmd where
  | copyBuffer : Nat → Nat → List BufferCopy → Cmd
  | pipelineBarrier : List BufferMemoryBarrier → Cmd
deriving DecidableEq

/-- `memcpy(dst, src, size)` into host memory: bytes `[addr, addr+size)`
receive `data 0 .. data (size-1)`; all other addresses keep their value. -/
def writeBytes (mem : Nat → Nat) (addr : Nat) (data : Nat → Nat) (size : Nat) :
    Nat → Nat :=
  fun i => if addr ≤ i ∧ i < addr + size then data (i - addr) else mem i

/-- Result of `stageData`: the copy regions, both allocators' states, and the
staging host memory after the `memcpy`s. -/
structure StageState where
  regions : List BufferCopy
  target : BufferAllocator
  transient : BufferAllocator
  mem : Nat → Nat

/-- Embedded from source: `RenderContext::stageData` (RenderContext.h:225-251).
For each item: `size = numBytesPerElement * numElements`; allocate from the
target allocator, then from the transient (staging) allocator, then `map` the
staging memory; on success `memcpy` the item's bytes to the mapped address and
append the copy region `{srcOffset, dstOffset, size}`. On the first failure
the loop `break`s: the regions accumulated so far are returned as-is. -/
def stageData : List TransferSrcData → BufferAllocator → BufferAllocator →
    (Nat → Nat) → StageState
  | [], target, transient, mem => ⟨[], target, transient, mem⟩
  | src :: rest, target, transient, mem =>
    let size := src.numBytesPerElement * src.numElements
    let ra := allocate target size
    if ra.success then
      let rb := allocate transient size
      if rb.success then
        let mp := map rb.state
        if mp.fst then
          let mem2 := writeBytes mem mp.snd src.pData size
          let st := stageData rest ra.state rb.state mem2
          ⟨⟨rb.offset, ra.offset, size⟩ :: st.regions, st.target, st.transient, st.mem⟩
        else ⟨[], ra.state, rb.state, mem⟩
      else ⟨[], ra.state, rb.state, mem⟩
    else ⟨[], ra.state, transient, mem⟩

/-- Result of `storeDataCmd`: per-item destination descriptors, the commands
recorded onto the transient command buffer, and the post-call states. -/
structure StoreResult where
  resultBuffers : List BufferRegion
  cmds : List Cmd
  target : BufferAllocator
  transient : BufferAllocator
  mem : Nat → Nat

/-- Embedded from source: `RenderContext::storeDataCmd`
(RenderContext.h:255-314). Calls `stageData`; builds one `BufferRegion` per
copy region (paired with the item at the same index); then reads
`copyRegions.front()` / `copyRegions.back()` to build the barrier span and
records a `copyBuffer` followed by a `pipelineBarrier` holding exactly one
buffer barrier. When the copy-region list is empty, `front()`/`back()` on an
empty `std::vector` is undefined behavior, modelled as `none`. -/
def storeDataCmd (dataVec : List TransferSrcData)
    (target transient : BufferAllocator) (mem : Nat → Nat) : Option StoreResult :=
  let st := stageData dataVec target transient mem
  let resultBuffers := List.zipWith
    (fun (region : BufferCopy) (srcData : TransferSrcData) =>
      ({ buffer := st.target.mBuffer
         offset := region.dstOffset
         range := region.size
         numElements := srcData.numElements } : BufferRegion))
    st.regions dataVec
  match st.regions with
  | [] => none
  | r0 :: rs =>
    let lastR := (r0 :: rs).getLast (List.cons_ne_nil r0 rs)
    let firstOffset := r0.dstOffset
    let totalStaticRange := lastR.dstOffset + lastR.size - firstOffset
    let barrier : BufferMemoryBarrier :=
      { srcAccessMask := AccessFlagBits.eTransferWrite
        dstAccessMask := AccessFlagBits.eShaderRead
        srcQueueFamilyIndex := VK_QUEUE_FAMILY_IGNORED
        dstQueueFamilyIndex := VK_QUEUE_FAMILY_IGNORED
        buffer := st.target.mBuffer
        offset := firstOffset
        size := totalStaticRange }
    some
      { resultBuffers := resultBuffers
        cmds := [Cmd.copyBuffer st.transient.mBuffer st.target.mBuffer (r0 :: rs),
                 Cmd.pipelineBarrier [barrier]]
        target := st.target
        transient := st.transient
        mem := st.mem }

/-- Run a whole sequence of `allocate` calls; `some (offsets, final)` when
every call succeeds, `none` otherwise. -/
def allocAll : BufferAllocator → List Nat → Option (List Nat × BufferAllocator)
  | a, [] => some ([], a)
  | a, n :: ns =>
    let r := allocate a n
    if r.success then
      match allocAll r.state ns with
      | some (offs, a') => some (r.offset :: offs, a')
      | none => none
    else none

/-- The per-item destination descriptors `storeDataCmd` builds: one
`BufferRegion` per staged copy region, paired with the item at the same
index (RenderContext.h:263-272). -/
def stagedBuffers (d : List TransferSrcData) (t s : BufferAllocator)
    (m : Nat → Nat) : List BufferRegion :=
  List.zipWith
    (fun (region : BufferCopy) (srcData : TransferSrcData) =>
      ({ buffer := (stageData d t s m).target.mBuffer
         offset := region.dstOffset
         range := region.size
         numElements := srcData.numElements } : BufferRegion))
    (stageData d t s m).regions d

/-- The single buffer memory barrier `storeDataCmd` records
(RenderContext.h:284-293), spanning from the first staged region's
destination offset to the last staged region's destination end. -/
def stagedBarrier (d : List TransferSrcData) (t s : BufferAllocator)
    (m : Nat → Nat) : BufferMemoryBarrier :=
  { srcAccessMask := AccessFlagBits.eTransferWrite
    dstAccessMask := AccessFlagBits.eShaderRead
    srcQueueFamilyIndex := VK_QUEUE_FAMILY_IGNORED
    dstQueueFamilyIndex := VK_QUEUE_FAMILY_IGNORED
    buffer := (stageData d t s m).target.mBuffer
    offset := ((stageData d t s m).regions.headD default).dstOffset
    size := ((stageData d t s m).regions.getLastD default).dstOffset +
      ((stageData d t s m).regions.getLastD default).size -
      ((stageData d t s m).regions.headD default).dstOffset }

/-- The full result `storeDataCmd` produces in its defined (non-UB) case. -/
def storeResultOf (d : List TransferSrcData) (t s : BufferAllocator)
    (m : Nat → Nat) : StoreResult :=
  { resultBuffers := stagedBuffers d t s m
    cmds := [Cmd.copyBuffer (stageData d t s m).transient.mBuffer
        (stageData d t s m).target.mBuffer (stageData d t s m).regions,
      Cmd.pipelineBarrier [stagedBarrier d t s m]]
    target := (stageData d t s m).target
    transient := (stageData d t s m).transient
    mem := (stageData d t s m).mem }

/-- The allocator state reached after `k` swaps of a freshly set-up allocator
(no allocations): all cursors zero, active index `k % F`, mapped address the
active slot's base when host-visible. -/
def cycleState (s : Settings) (buffer k : Nat) : BufferAllocator :=
  { settings := s
    mAlignment := 256
    mBuffer := buffer
    mOffsetEnd := List.replicate s.frameCount 0
    mCurrentMappedAddress :=
      if s.hostVisible then some ((k % s.frameCount) * slotSize s) else none
    mCurrentVirtualFrameIdx := k % s.frameCount }

/-- A mapped address is only present when the reservation is host-visible
(holds for every state reachable from `setup`). -/
def MappedInv (a : BufferAllocator) : Prop :=
  a.mCurrentMappedAddress.isSome = true → a.settings.hostVisible = true

instance (a : BufferAllocator) : Decidable (MappedInv a) := by
  unfold MappedInv; infer_instance

theorem roundUpAlign_ge (n align : Nat) (h : 0 < align) : n ≤ roundUpAlign n align := by
  unfold roundUpAlign
  have hdm := Nat.div_add_mod (n + align - 1) align
  have hml : (n + align - 1) % align < align := Nat.mod_lt _ h
  omega

theorem roundUpAlign_dvd (n align : Nat) : align ∣ roundUpAlign n align :=
  ⟨(n + align - 1) / align, rfl⟩

theorem advance_settings (a : BufferAllocator) (r : Nat) :
    (advance a r).settings = a.settings := rfl

theorem advance_idx (a : BufferAllocator) (r : Nat) :
    (advance a r).mCurrentVirtualFrameIdx = a.mCurrentVirtualFrameIdx := rfl

theorem advance_mBuffer (a : BufferAllocator) (r : Nat) :
    (advance a r).mBuffer = a.mBuffer := rfl

theorem advance_mAlignment (a : BufferAllocator) (r : Nat) :
    (advance a r).mAlignment = a.mAlignment := rfl

theorem advance_length (a : BufferAllocator) (r : Nat) :
    (advance a r).mOffsetEnd.length = a.mOffsetEnd.length := by
  unfold advance
  exact List.length_set ..

theorem base_advance (a : BufferAllocator) (r : Nat) : base (advance a r) = base a := rfl

theorem getD_set_self : ∀ (l : List Nat) (i v : Nat), i < l.length →
    (l.set i v).getD i 0 = v
  | [], i, _, h => absurd h (Nat.not_lt_zero i)
  | _ :: _, 0, _, _ => rfl
  | _ :: l, i + 1, v, h => getD_set_self l i v (Nat.lt_of_succ_lt_succ h)

theorem cursor_advance (a : BufferAllocator) (r : Nat)
    (h : a.mCurrentVirtualFrameIdx < a.mOffsetEnd.length) :
    cursor (advance a r) = cursor a + r := by
  show (a.mOffsetEnd.set a.mCurrentVirtualFrameIdx (cursor a + r)).getD
      a.mCurrentVirtualFrameIdx 0 = cursor a + r
  exact getD_set_self _ _ _ h

theorem cursor_advance_ge (a : BufferAllocator) (r : Nat) :
    cursor a ≤ cursor (advance a r) := by
  rcases Nat.lt_or_ge a.mCurrentVirtualFrameIdx a.mOffsetEnd.length with h | h
  · rw [cursor_advance a r h]
    exact Nat.le_add_right _ _
  · show cursor a ≤ (a.mOffsetEnd.set a.mCurrentVirtualFrameIdx (cursor a + r)).getD
      a.mCurrentVirtualFrameIdx 0
    rw [List.set_eq_of_length_le h]
    exact Nat.le_refl _

theorem allocate_success_iff (a : BufferAllocator) (n : Nat) :
    (allocate a n).success = true ↔
      n ≠ 0 ∧ cursor a + roundUpAlign n a.mAlignment ≤ slotSize a.settings := by
  unfold allocate
  by_cases h0 : n = 0 <;>
    by_cases hc : cursor a + roundUpAlign n a.mAlignment > slotSize a.settings <;>
      simp [h0, hc] <;> omega

theorem allocate_of_success (a : BufferAllocator) (n : Nat)
    (h : (allocate a n).success = true) :
    allocate a n = ⟨true, base a + cursor a, advance a (roundUpAlign n a.mAlignment)⟩ := by
  rcases (allocate_success_iff a n).1 h with ⟨h0, hc⟩
  unfold allocate
  rw [if_neg h0, if_neg (by omega)]

theorem allocate_of_fail (a : BufferAllocator) (n : Nat)
    (h : (allocate a n).success = false) :
    allocate a n = ⟨false, 0, a⟩ := by
  unfold allocate at h ⊢
  by_cases h0 : n = 0
  · rw [if_pos h0]
  · rw [if_neg h0] at h ⊢
    by_cases hc : cursor a + roundUpAlign n a.mAlignment > slotSize a.settings
    · rw [if_pos hc]
    · rw [if_neg hc] at h
      simp at h

/-- Claim C3 (amended: the stated failure/success dichotomy holds for every
positive request; zero-byte requests always return failure with the allocator
unchanged, as the spec rejects them as a caller error): if `n` rounded up to
the alignment exceeds `slot_size - cursor`, `allocate a n` fails and leaves
the whole state unchanged; otherwise it reserves `[cursor, cursor+rounded)`
in the active slot, advances the cursor by the rounded size, and returns the
absolute device offset (slot base + in-slot offset) with success. -/
theorem claim_C3 (a : BufferAllocator) (n : Nat)
    (hwf : a.mCurrentVirtualFrameIdx < a.mOffsetEnd.length)
    (hn : 0 < n) (hc : cursor a ≤ slotSize a.settings) :
    (slotSize a.settings - cursor a < roundUpAlign n a.mAlignment →
        allocate a n = ⟨false, 0, a⟩) ∧
    (roundUpAlign n a.mAlignment ≤ slotSize a.settings - cursor a →
        allocate a n =
          ⟨true, a.mCurrentVirtualFrameIdx * slotSize a.settings + cursor a,
            advance a (roundUpAlign n a.mAlignment)⟩ ∧
        cursor (advance a (roundUpAlign n a.mAlignment)) =
          cursor a + roundUpAlign n a.mAlignment) := by
  constructor
  · intro hgt
    cases hsucc : (allocate a n).success
    · exact allocate_of_fail a n hsucc
    · exfalso
      rcases (allocate_success_iff a n).1 hsucc with ⟨-, hfit⟩
      omega
  · intro hle
    have hs : (allocate a n).success = true :=
      (allocate_success_iff a n).2 ⟨by omega, by omega⟩
    refine ⟨allocate_of_success a n hs, cursor_advance a _ hwf⟩

/-- Claim C3 counterexample: at request `n = 0` the rounded size (0) does not
exceed `slot_size - cursor`, yet `allocate` returns failure, so the claim's
unrestricted success branch is violated at zero-byte requests. -/
theorem claim_C3_counterexample :
    roundUpAlign 0 (setup ⟨1024, 2, true⟩ 0).mAlignment ≤
      slotSize (setup ⟨1024, 2, true⟩ 0).settings - cursor (setup ⟨1024, 2, true⟩ 0) ∧
    (allocate (setup ⟨1024, 2, true⟩ 0) 0).success = false := by decide

/-- Witness for C3 at a concrete input (fresh 1024-byte, two-frame allocator,
request 100). -/
theorem claim_C3_witness :
    0 < 100 ∧ cursor (setup ⟨1024, 2, true⟩ 0) ≤ slotSize (setup ⟨1024, 2, true⟩ 0).settings ∧
    ((slotSize (setup ⟨1024, 2, true⟩ 0).settings - cursor (setup ⟨1024, 2, true⟩ 0) <
          roundUpAlign 100 (setup ⟨1024, 2, true⟩ 0).mAlignment →
        allocate (setup ⟨1024, 2, true⟩ 0) 100 = ⟨false, 0, setup ⟨1024, 2, true⟩ 0⟩) ∧
      (roundUpAlign 100 (setup ⟨1024, 2, true⟩ 0).mAlignment ≤
          slotSize (setup ⟨1024, 2, true⟩ 0).settings - cursor (setup ⟨1024, 2, true⟩ 0) →
        allocate (setup ⟨1024, 2, true⟩ 0) 100 =
          ⟨true, (setup ⟨1024, 2, true⟩ 0).mCurrentVirtualFrameIdx *
              slotSize (setup ⟨1024, 2, true⟩ 0).settings + cursor (setup ⟨1024, 2, true⟩ 0),
            advance (setup ⟨1024, 2, true⟩ 0)
              (roundUpAlign 100 (setup ⟨1024, 2, true⟩ 0).mAlignment)⟩ ∧
        cursor (advance (setup ⟨1024, 2, true⟩ 0)
            (roundUpAlign 100 (setup ⟨1024, 2, true⟩ 0).mAlignment)) =
          cursor (setup ⟨1024, 2, true⟩ 0) +
            roundUpAlign 100 (setup ⟨1024, 2, true⟩ 0).mAlignment)) :=
  ⟨by decide, by decide, claim_C3 (setup ⟨1024, 2, true⟩ 0) 100 (by decide) (by decide) (by decide)⟩

theorem set_replicate_zero : ∀ (F i : Nat),
    (List.replicate F (0 : Nat)).set i 0 = List.replicate F 0
  | 0, _ => rfl
  | _ + 1, 0 => rfl
  | F + 1, i + 1 => congrArg (List.cons 0) (set_replicate_zero F i)

theorem cycleState_zero (s : Settings) (b : Nat) : cycleState s b 0 = setup s b := by
  unfold cycleState setup
  simp [Nat.zero_mod]

theorem swap_cycleState (s : Settings) (b k : Nat) :
    swap (cycleState s b k) = cycleState s b (k + 1) := by
  unfold swap cycleState
  simp [BufferAllocator.mk.injEq, set_replicate_zero, Nat.mod_add_mod]

theorem iterate_swap (s : Settings) (b : Nat) :
    ∀ k, swap^[k] (setup s b) = cycleState s b k
  | 0 => (cycleState_zero s b).symm
  | k + 1 => by
    rw [Function.iterate_succ_apply', iterate_swap s b k, swap_cycleState]

/-- Claim C5: with frame count `F` and no intervening allocations, `F` swaps
return the allocator — active-frame index and every slot cursor — to exactly
its post-`setup` state, and each swap advances the active-frame index by one
modulo `F`. -/
theorem claim_C5 (s : Settings) (b : Nat) (hF : 0 < s.frameCount) :
    swap^[s.frameCount] (setup s b) = setup s b ∧
    ∀ a : BufferAllocator,
      (swap a).mCurrentVirtualFrameIdx =
        (a.mCurrentVirtualFrameIdx + 1) % a.settings.frameCount := by
  refine ⟨?_, fun a => rfl⟩
  rw [iterate_swap s b s.frameCount, ← cycleState_zero s b]
  unfold cycleState
  simp [Nat.mod_self, Nat.zero_mod]

/-- Witness for C5 at a concrete input (two-frame allocator). -/
theorem claim_C5_witness :
    0 < (⟨1024, 2, true⟩ : Settings).frameCount ∧
    swap^[(⟨1024, 2, true⟩ : Settings).frameCount] (setup ⟨1024, 2, true⟩ 5) =
      setup ⟨1024, 2, true⟩ 5 :=
  ⟨by decide, (claim_C5 ⟨1024, 2, true⟩ 5 (by decide)).1⟩

theorem applyOp_settings (a : BufferAllocator) (op : Op) :
    (applyOp a op).settings = a.settings := by
  cases op with
  | alloc n =>
    show (allocate a n).state.settings = a.settings
    cases hsucc : (allocate a n).success
    · rw [allocate_of_fail a n hsucc]
    · rw [allocate_of_success a n hsucc]
      rfl
  | swapOp => rfl
  | freeOp k => rfl

theorem applyOp_mapped (a : BufferAllocator) (op : Op)
    (h : a.mCurrentMappedAddress.isSome = a.settings.hostVisible) :
    (applyOp a op).mCurrentMappedAddress.isSome = (applyOp a op).settings.hostVisible := by
  rw [applyOp_settings]
  cases op with
  | alloc n =>
    show (allocate a n).state.mCurrentMappedAddress.isSome = _
    cases hsucc : (allocate a n).success
    · rw [allocate_of_fail a n hsucc]
      exact h
    · rw [allocate_of_success a n hsucc]
      show (advance a _).mCurrentMappedAddress.isSome = a.settings.hostVisible
      unfold advance
      cases hv : a.settings.hostVisible
      · rw [hv] at h
        simpa [hv] using h
      · simp [hv]
  | swapOp =>
    show (swap a).mCurrentMappedAddress.isSome = _
    unfold swap
    cases hv : a.settings.hostVisible <;> simp [hv]
  | freeOp k => exact h

theorem foldl_settings (ops : List Op) : ∀ a : BufferAllocator,
    (ops.foldl applyOp a).settings = a.settings := by
  induction ops with
  | nil => intro a; rfl
  | cons op ops ih =>
    intro a
    rw [List.foldl_cons, ih (applyOp a op), applyOp_settings]

theorem foldl_mapped (ops : List Op) : ∀ a : BufferAllocator,
    a.mCurrentMappedAddress.isSome = a.settings.hostVisible →
    (ops.foldl applyOp a).mCurrentMappedAddress.isSome =
      (ops.foldl applyOp a).settings.hostVisible := by
  induction ops with
  | nil => intro a h; exact h
  | cons op ops ih =>
    intro a h
    rw [List.foldl_cons]
    exact ih (applyOp a op) (applyOp_mapped a op h)

/-- Claim C6: for every allocator state reachable from `setup` by any sequence
of operations, `map()` reports success (a non-null pointer) exactly when the
reservation was created with host-visible memory properties; `map` itself is a
pure lookup of `mCurrentMappedAddress` (BufferAllocator.h:101-104): it returns
no modified state and allocates nothing. -/
theorem claim_C6 (s : Settings) (buffer : Nat) (ops : List Op) :
    (map (runOps s buffer ops)).fst = s.hostVisible ∧
    (runOps s buffer ops).settings = s := by
  have hset : (runOps s buffer ops).settings = s := foldl_settings ops (setup s buffer)
  refine ⟨?_, hset⟩
  have h0 : (setup s buffer).mCurrentMappedAddress.isSome =
      (setup s buffer).settings.hostVisible := by
    unfold setup
    cases hv : s.hostVisible <;> simp [hv]
  have hinv := foldl_mapped ops (setup s buffer) h0
  show (runOps s buffer ops).mCurrentMappedAddress.isSome = s.hostVisible
  rw [show (runOps s buffer ops).mCurrentMappedAddress.isSome =
      (ops.foldl applyOp (setup s buffer)).mCurrentMappedAddress.isSome from rfl, hinv]
  rw [show (ops.foldl applyOp (setup s buffer)).settings =
      (runOps s buffer ops).settings from rfl, hset]

theorem stageData_cons_fail1 (src : TransferSrcData) (rest : List TransferSrcData)
    (t s : BufferAllocator) (m : Nat → Nat)
    (h : (allocate t (src.numBytesPerElement * src.numElements)).success = false) :
    stageData (src :: rest) t s m =
      ⟨[], (allocate t (src.numBytesPerElement * src.numElements)).state, s, m⟩ := by
  simp [stageData, h]

theorem stageData_cons_fail2 (src : TransferSrcData) (rest : List TransferSrcData)
    (t s : BufferAllocator) (m : Nat → Nat)
    (h1 : (allocate t (src.numBytesPerElement * src.numElements)).success = true)
    (h2 : (allocate s (src.numBytesPerElement * src.numElements)).success = false) :
    stageData (src :: rest) t s m =
      ⟨[], (allocate t (src.numBytesPerElement * src.numElements)).state,
        (allocate s (src.numBytesPerElement * src.numElements)).state, m⟩ := by
  simp [stageData, h1, h2]

theorem stageData_cons_fail3 (src : TransferSrcData) (rest : List TransferSrcData)
    (t s : BufferAllocator) (m : Nat → Nat)
    (h1 : (allocate t (src.numBytesPerElement * src.numElements)).success = true)
    (h2 : (allocate s (src.numBytesPerElement * src.numElements)).success = true)
    (h3 : (map (allocate s (src.numBytesPerElement * src.numElements)).state).fst = false) :
    stageData (src :: rest) t s m =
      ⟨[], (allocate t (src.numBytesPerElement * src.numElements)).state,
        (allocate s (src.numBytesPerElement * src.numElements)).state, m⟩ := by
  simp [stageData, h1, h2, h3]

theorem stageData_cons_success (src : TransferSrcData) (rest : List TransferSrcData)
    (t s : BufferAllocator) (m : Nat → Nat)
    (h1 : (allocate t (src.numBytesPerElement * src.numElements)).success = true)
    (h2 : (allocate s (src.numBytesPerElement * src.numElements)).success = true)
    (h3 : (map (allocate s (src.numBytesPerElement * src.numElements)).state).fst = true) :
    stageData (src :: rest) t s m =
      ⟨⟨(allocate s (src.numBytesPerElement * src.numElements)).offset,
          (allocate t (src.numBytesPerElement * src.numElements)).offset,
          src.numBytesPerElement * src.numElements⟩ ::
        (stageData rest (allocate t (src.numBytesPerElement * src.numElements)).state
          (allocate s (src.numBytesPerElement * src.numElements)).state
          (writeBytes m (map (allocate s (src.numBytesPerElement * src.numElements)).state).snd
            src.pData (src.numBytesPerElement * src.numElements))).regions,
        (stageData rest (allocate t (src.numBytesPerElement * src.numElements)).state
          (allocate s (src.numBytesPerElement * src.numElements)).state
          (writeBytes m (map (allocate s (src.numBytesPerElement * src.numElements)).state).snd
            src.pData (src.numBytesPerElement * src.numElements))).target,
        (stageData rest (allocate t (src.numBytesPerElement * src.numElements)).state
          (allocate s (src.numBytesPerElement * src.numElements)).state
          (writeBytes m (map (allocate s (src.numBytesPerElement * src.numElements)).state).snd
            src.pData (src.numBytesPerElement * src.numElements))).transient,
        (stageData rest (allocate t (src.numBytesPerElement * src.numElements)).state
          (allocate s (src.numBytesPerElement * src.numElements)).state
          (writeBytes m (map (allocate s (src.numBytesPerElement * src.numElements)).state).snd
            src.pData (src.numBytesPerElement * src.numElements))).mem⟩ := by
  simp [stageData, h1, h2, h3]

/-- Claim C10 (amended: the cursor remains advanced by the item's size rounded
up to the allocator's alignment): in `stageData` the destination allocation is
attempted before the staging allocation, and when the destination `allocate`
succeeds but the staging `allocate` or the `map` fails, the whole call returns
no copy-region for the item while the destination allocator's cursor stays
advanced by the rounded item size — per-item failure is not side-effect-free
on the destination allocator. -/
theorem claim_C10 (src : TransferSrcData) (rest : List TransferSrcData)
    (t s : BufferAllocator) (m : Nat → Nat)
    (hwf : t.mCurrentVirtualFrameIdx < t.mOffsetEnd.length)
    (h1 : (allocate t (src.numBytesPerElement * src.numElements)).success = true)
    (h2 : (allocate s (src.numBytesPerElement * src.numElements)).success = false ∨
      (map (allocate s (src.numBytesPerElement * src.numElements)).state).fst = false) :
    (stageData (src :: rest) t s m).regions = [] ∧
    (stageData (src :: rest) t s m).target =
      (allocate t (src.numBytesPerElement * src.numElements)).state ∧
    cursor (stageData (src :: rest) t s m).target =
      cursor t + roundUpAlign (src.numBytesPerElement * src.numElements) t.mAlignment ∧
    (stageData (src :: rest) t s m).mem = m := by
  have hcur : cursor (allocate t (src.numBytesPerElement * src.numElements)).state =
      cursor t + roundUpAlign (src.numBytesPerElement * src.numElements) t.mAlignment := by
    rw [allocate_of_success t _ h1]
    exact cursor_advance t _ hwf
  rcases h2 with h2 | h2
  · rw [stageData_cons_fail2 src rest t s m h1 h2]
    exact ⟨rfl, rfl, hcur, rfl⟩
  · cases hb : (allocate s (src.numBytesPerElement * src.numElements)).success
    · rw [stageData_cons_fail2 src rest t s m h1 hb]
      exact ⟨rfl, rfl, hcur, rfl⟩
    · rw [stageData_cons_fail3 src rest t s m h1 hb h2]
      exact ⟨rfl, rfl, hcur, rfl⟩

/-- Claim C10 counterexample: a 100-byte item whose staging allocation fails
(staging allocator of size 0) leaves the destination cursor advanced by 256
(the rounded size), not by the item's size 100, so the claim's "advanced by
that item's size" is false as stated. -/
theorem claim_C10_counterexample :
    (stageData [⟨fun _ => 0, 100, 1⟩] (setup ⟨1024, 1, false⟩ 0) (setup ⟨0, 1, true⟩ 1)
        (fun _ => 0)).regions = [] ∧
    cursor (stageData [⟨fun _ => 0, 100, 1⟩] (setup ⟨1024, 1, false⟩ 0) (setup ⟨0, 1, true⟩ 1)
        (fun _ => 0)).target = 256 ∧
    cursor (setup ⟨1024, 1, false⟩ 0) + 100 = 100 ∧ (256 : Nat) ≠ 100 := by
  refine ⟨by decide, by decide, by decide, by decide⟩

/-- Witness for C10 at a concrete input (destination succeeds, staging
allocator of size 0 fails). -/
theorem claim_C10_witness :
    (allocate (setup ⟨1024, 1, false⟩ 0)
        ((⟨fun _ => 0, 100, 1⟩ : TransferSrcData).numBytesPerElement *
          (⟨fun _ => 0, 100, 1⟩ : TransferSrcData).numElements)).success = true ∧
    (stageData [⟨fun _ => 0, 100, 1⟩] (setup ⟨1024, 1, false⟩ 0) (setup ⟨0, 1, true⟩ 1)
        (fun _ => 0)).regions = [] ∧
    cursor (stageData [⟨fun _ => 0, 100, 1⟩] (setup ⟨1024, 1, false⟩ 0) (setup ⟨0, 1, true⟩ 1)
        (fun _ => 0)).target =
      cursor (setup ⟨1024, 1, false⟩ 0) +
        roundUpAlign
          ((⟨fun _ => 0, 100, 1⟩ : TransferSrcData).numBytesPerElement *
            (⟨fun _ => 0, 100, 1⟩ : TransferSrcData).numElements)
          (setup ⟨1024, 1, false⟩ 0).mAlignment := by
  have h := claim_C10 ⟨fun _ => 0, 100, 1⟩ [] (setup ⟨1024, 1, false⟩ 0) (setup ⟨0, 1, true⟩ 1)
    (fun _ => 0) (by decide) (by decide) (Or.inl (by decide))
  exact ⟨by decide, h.1, h.2.2.1⟩

theorem stageData_append_full : ∀ (xs : List TransferSrcData) (t s : BufferAllocator)
    (m : Nat → Nat), (stageData xs t s m).regions.length = xs.length →
    ∀ ys, stageData (xs ++ ys) t s m =
      ⟨(stageData xs t s m).regions ++
          (stageData ys (stageData xs t s m).target (stageData xs t s m).transient
            (stageData xs t s m).mem).regions,
        (stageData ys (stageData xs t s m).target (stageData xs t s m).transient
          (stageData xs t s m).mem).target,
        (stageData ys (stageData xs t s m).target (stageData xs t s m).transient
          (stageData xs t s m).mem).transient,
        (stageData ys (stageData xs t s m).target (stageData xs t s m).transient
          (stageData xs t s m).mem).mem⟩ := by
  intro xs
  induction xs with
  | nil => intro t s m _ ys; rfl
  | cons x xs ih =>
    intro t s m hlen ys
    by_cases h1 : (allocate t (x.numBytesPerElement * x.numElements)).success = true
    · by_cases h2 : (allocate s (x.numBytesPerElement * x.numElements)).success = true
      · by_cases h3 :
            (map (allocate s (x.numBytesPerElement * x.numElements)).state).fst = true
        · rw [stageData_cons_success x xs t s m h1 h2 h3] at hlen
          simp only [List.length_cons, List.length_cons, Nat.add_right_cancel_iff] at hlen
          rw [List.cons_append, stageData_cons_success x (xs ++ ys) t s m h1 h2 h3,
            stageData_cons_success x xs t s m h1 h2 h3, ih _ _ _ hlen ys]
          simp
        · rw [Bool.not_eq_true] at h3
          rw [stageData_cons_fail3 x xs t s m h1 h2 h3] at hlen
          simp at hlen
      · rw [Bool.not_eq_true] at h2
        rw [stageData_cons_fail2 x xs t s m h1 h2] at hlen
        simp at hlen
    · rw [Bool.not_eq_true] at h1
      rw [stageData_cons_fail1 x xs t s m h1] at hlen
      simp at hlen

theorem stageData_fail_head (y : TransferSrcData) (zs : List TransferSrcData)
    (t s : BufferAllocator) (m : Nat → Nat)
    (h : (stageData [y] t s m).regions = []) :
    stageData (y :: zs) t s m = stageData [y] t s m := by
  by_cases h1 : (allocate t (y.numBytesPerElement * y.numElements)).success = true
  · by_cases h2 : (allocate s (y.numBytesPerElement * y.numElements)).success = true
    · by_cases h3 :
          (map (allocate s (y.numBytesPerElement * y.numElements)).state).fst = true
      · exfalso
        rw [stageData_cons_success y [] t s m h1 h2 h3] at h
        simp at h
      · rw [Bool.not_eq_true] at h3
        rw [stageData_cons_fail3 y zs t s m h1 h2 h3,
          stageData_cons_fail3 y [] t s m h1 h2 h3]
    · rw [Bool.not_eq_true] at h2
      rw [stageData_cons_fail2 y zs t s m h1 h2, stageData_cons_fail2 y [] t s m h1 h2]
  · rw [Bool.not_eq_true] at h1
    rw [stageData_cons_fail1 y zs t s m h1, stageData_cons_fail1 y [] t s m h1]

/-- Claim C1 (amended: the batch does abort at the first failing item — no
later item is processed — but the copy-regions already produced for earlier
items are NOT discarded: they are returned as the call's ordinary result, so
the caller receives a partial copy-region list, shorter than the input): when
every item of `xs` stages successfully and the next item `y` fails, staging
`xs ++ y :: zs` equals staging `xs ++ [y]` (whatever follows the failing item
is ignored), and the returned regions are exactly those of `xs`. -/
theorem claim_C1 (xs : List TransferSrcData) (y : TransferSrcData)
    (zs : List TransferSrcData) (t s : BufferAllocator) (m : Nat → Nat)
    (h1 : (stageData xs t s m).regions.length = xs.length)
    (h2 : (stageData [y] (stageData xs t s m).target (stageData xs t s m).transient
        (stageData xs t s m).mem).regions = []) :
    stageData (xs ++ y :: zs) t s m = stageData (xs ++ [y]) t s m ∧
    (stageData (xs ++ [y]) t s m).regions = (stageData xs t s m).regions := by
  have hA := stageData_append_full xs t s m h1 (y :: zs)
  have hB := stageData_append_full xs t s m h1 [y]
  have hC := stageData_fail_head y zs (stageData xs t s m).target
    (stageData xs t s m).transient (stageData xs t s m).mem h2
  constructor
  · rw [hA, hB, hC]
  · rw [hB]
    simp [h2]

/-- Claim C1 counterexample: a two-item batch whose second item fails to
allocate returns the one region staged for the first item — a non-empty
partial copy-region list returned as the ordinary (success-shaped) result,
refuting "partial regions already produced are discarded". -/
theorem claim_C1_counterexample :
    ([(⟨fun j => j + 10, 100, 1⟩ : TransferSrcData), ⟨fun j => j + 10, 100, 1⟩] :
        List TransferSrcData).length = 2 ∧
    (stageData [⟨fun j => j + 10, 100, 1⟩, ⟨fun j => j + 10, 100, 1⟩]
        (setup ⟨256, 1, false⟩ 0) (setup ⟨1024, 1, true⟩ 1) (fun _ => 0)).regions.length = 1 ∧
    (stageData [⟨fun j => j + 10, 100, 1⟩, ⟨fun j => j + 10, 100, 1⟩]
        (setup ⟨256, 1, false⟩ 0) (setup ⟨1024, 1, true⟩ 1) (fun _ => 0)).regions ≠ [] := by
  refine ⟨by decide, by decide, by decide⟩

/-- Witness for C1 at a concrete input (one successful item, then a failing
item, then a trailing item that is never processed). -/
theorem claim_C1_witness :
    (stageData [⟨fun j => j + 10, 100, 1⟩] (setup ⟨256, 1, false⟩ 0)
        (setup ⟨1024, 1, true⟩ 1) (fun _ => 0)).regions.length =
      ([(⟨fun j => j + 10, 100, 1⟩ : TransferSrcData)] : List TransferSrcData).length ∧
    stageData ([⟨fun j => j + 10, 100, 1⟩] ++ (⟨fun j => j + 10, 100, 1⟩ : TransferSrcData) ::
        [⟨fun j => j + 10, 100, 1⟩]) (setup ⟨256, 1, false⟩ 0) (setup ⟨1024, 1, true⟩ 1)
        (fun _ => 0) =
      stageData ([⟨fun j => j + 10, 100, 1⟩] ++ [⟨fun j => j + 10, 100, 1⟩])
        (setup ⟨256, 1, false⟩ 0) (setup ⟨1024, 1, true⟩ 1) (fun _ => 0) :=
  ⟨by decide,
    (claim_C1 [⟨fun j => j + 10, 100, 1⟩] ⟨fun j => j + 10, 100, 1⟩
      [⟨fun j => j + 10, 100, 1⟩] (setup ⟨256, 1, false⟩ 0) (setup ⟨1024, 1, true⟩ 1)
      (fun _ => 0) (by decide) (by decide)).1⟩

/-- Claim C9: `storeDataCmd` unconditionally reads `front()`/`back()` of the
copy-region list produced by `stageData`; with an empty list this is undefined
behavior (modelled as `none`), so its result is defined exactly when at least
one item was successfully staged. -/
theorem claim_C9 (d : List TransferSrcData) (t s : BufferAllocator) (m : Nat → Nat) :
    (storeDataCmd d t s m).isSome = true ↔ (stageData d t s m).regions ≠ [] := by
  unfold storeDataCmd
  cases h : (stageData d t s m).regions with
  | nil => simp [h]
  | cons r rs => simp [h]


theorem allocate_state_eq (a : BufferAllocator) (n : Nat) :
    (allocate a n).state = a ∨
    (allocate a n).state = advance a (roundUpAlign n a.mAlignment) := by
  cases hsucc : (allocate a n).success
  · exact Or.inl (by rw [allocate_of_fail a n hsucc])
  · exact Or.inr (by rw [allocate_of_success a n hsucc])

theorem allocate_state_mBuffer (a : BufferAllocator) (n : Nat) :
    (allocate a n).state.mBuffer = a.mBuffer := by
  rcases allocate_state_eq a n with h | h <;> rw [h] <;> rfl

theorem allocate_state_settings (a : BufferAllocator) (n : Nat) :
    (allocate a n).state.settings = a.settings := by
  rcases allocate_state_eq a n with h | h <;> rw [h] <;> rfl

theorem allocate_state_idx (a : BufferAllocator) (n : Nat) :
    (allocate a n).state.mCurrentVirtualFrameIdx = a.mCurrentVirtualFrameIdx := by
  rcases allocate_state_eq a n with h | h <;> rw [h] <;> rfl

theorem allocate_state_mAlignment (a : BufferAllocator) (n : Nat) :
    (allocate a n).state.mAlignment = a.mAlignment := by
  rcases allocate_state_eq a n with h | h <;> rw [h] <;> rfl

theorem allocate_state_length (a : BufferAllocator) (n : Nat) :
    (allocate a n).state.mOffsetEnd.length = a.mOffsetEnd.length := by
  rcases allocate_state_eq a n with h | h <;> rw [h]
  exact advance_length a _

theorem allocate_cursor_ge (a : BufferAllocator) (n : Nat) :
    cursor a ≤ cursor (allocate a n).state := by
  rcases allocate_state_eq a n with h | h <;> rw [h]
  exact cursor_advance_ge a _

theorem base_allocate (a : BufferAllocator) (n : Nat) :
    base (allocate a n).state = base a := by
  rcases allocate_state_eq a n with h | h <;> rw [h] <;> rfl

theorem stageData_target_pres {α : Type} (f : BufferAllocator → α)
    (hf : ∀ a n, f (allocate a n).state = f a) :
    ∀ (l : List TransferSrcData) (t s : BufferAllocator) (m : Nat → Nat),
      f (stageData l t s m).target = f t := by
  intro l
  induction l with
  | nil => intro t s m; rfl
  | cons x xs ih =>
    intro t s m
    by_cases h1 : (allocate t (x.numBytesPerElement * x.numElements)).success = true
    · by_cases h2 : (allocate s (x.numBytesPerElement * x.numElements)).success = true
      · by_cases h3 :
            (map (allocate s (x.numBytesPerElement * x.numElements)).state).fst = true
        · rw [stageData_cons_success x xs t s m h1 h2 h3]
          show f (stageData xs _ _ _).target = f t
          rw [ih, hf]
        · rw [Bool.not_eq_true] at h3
          rw [stageData_cons_fail3 x xs t s m h1 h2 h3]
          exact hf t _
      · rw [Bool.not_eq_true] at h2
        rw [stageData_cons_fail2 x xs t s m h1 h2]
        exact hf t _
    · rw [Bool.not_eq_true] at h1
      rw [stageData_cons_fail1 x xs t s m h1]
      exact hf t _

theorem stageData_transient_pres {α : Type} (f : BufferAllocator → α)
    (hf : ∀ a n, f (allocate a n).state = f a) :
    ∀ (l : List TransferSrcData) (t s : BufferAllocator) (m : Nat → Nat),
      f (stageData l t s m).transient = f s := by
  intro l
  induction l with
  | nil => intro t s m; rfl
  | cons x xs ih =>
    intro t s m
    by_cases h1 : (allocate t (x.numBytesPerElement * x.numElements)).success = true
    · by_cases h2 : (allocate s (x.numBytesPerElement * x.numElements)).success = true
      · by_cases h3 :
            (map (allocate s (x.numBytesPerElement * x.numElements)).state).fst = true
        · rw [stageData_cons_success x xs t s m h1 h2 h3]
          show f (stageData xs _ _ _).transient = f s
          rw [ih, hf]
        · rw [Bool.not_eq_true] at h3
          rw [stageData_cons_fail3 x xs t s m h1 h2 h3]
          exact hf s _
      · rw [Bool.not_eq_true] at h2
        rw [stageData_cons_fail2 x xs t s m h1 h2]
        exact hf s _
    · rw [Bool.not_eq_true] at h1
      rw [stageData_cons_fail1 x xs t s m h1]

theorem stageData_target_mBuffer (l : List TransferSrcData) (t s : BufferAllocator)
    (m : Nat → Nat) : (stageData l t s m).target.mBuffer = t.mBuffer :=
  stageData_target_pres (fun a => a.mBuffer) allocate_state_mBuffer l t s m

theorem stageData_transient_mBuffer (l : List TransferSrcData) (t s : BufferAllocator)
    (m : Nat → Nat) : (stageData l t s m).transient.mBuffer = s.mBuffer :=
  stageData_transient_pres (fun a => a.mBuffer) allocate_state_mBuffer l t s m

theorem stageData_dst_bound : ∀ (l : List TransferSrcData) (t s : BufferAllocator)
    (m : Nat → Nat),
    (∀ r ∈ (stageData l t s m).regions, base t + cursor t ≤ r.dstOffset) ∧
    ((stageData l t s m).regions ≠ [] →
      ((stageData l t s m).regions.headD default).dstOffset = base t + cursor t) := by
  intro l
  induction l with
  | nil =>
    intro t s m
    exact ⟨fun r hr => absurd hr (List.not_mem_nil r), fun h => absurd rfl h⟩
  | cons x xs ih =>
    intro t s m
    by_cases h1 : (allocate t (x.numBytesPerElement * x.numElements)).success = true
    · by_cases h2 : (allocate s (x.numBytesPerElement * x.numElements)).success = true
      · by_cases h3 :
            (map (allocate s (x.numBytesPerElement * x.numElements)).state).fst = true
        · rw [stageData_cons_success x xs t s m h1 h2 h3]
          have hoff : (allocate t (x.numBytesPerElement * x.numElements)).offset =
              base t + cursor t := by
            rw [allocate_of_success t _ h1]
          constructor
          · intro r hr
            rcases List.mem_cons.1 hr with hr | hr
            · rw [hr]
              show base t + cursor t ≤ _
              rw [hoff]
            · have hb := (ih (allocate t (x.numBytesPerElement * x.numElements)).state
                (allocate s (x.numBytesPerElement * x.numElements)).state
                (writeBytes m
                  (map (allocate s (x.numBytesPerElement * x.numElements)).state).snd
                  x.pData (x.numBytesPerElement * x.numElements))).1 r hr
              rw [base_allocate] at hb
              exact Nat.le_trans (Nat.add_le_add_left (allocate_cursor_ge t _) _) hb
          · intro _
            exact hoff
        · rw [Bool.not_eq_true] at h3
          rw [stageData_cons_fail3 x xs t s m h1 h2 h3]
          exact ⟨fun r hr => absurd hr (List.not_mem_nil r), fun h => absurd rfl h⟩
      · rw [Bool.not_eq_true] at h2
        rw [stageData_cons_fail2 x xs t s m h1 h2]
        exact ⟨fun r hr => absurd hr (List.not_mem_nil r), fun h => absurd rfl h⟩
    · rw [Bool.not_eq_true] at h1
      rw [stageData_cons_fail1 x xs t s m h1]
      exact ⟨fun r hr => absurd hr (List.not_mem_nil r), fun h => absurd rfl h⟩

theorem getLast_cons_eq_getLastD {α : Type} (d : α) :
    ∀ (rs : List α) (r : α),
      (r :: rs).getLast (List.cons_ne_nil r rs) = (r :: rs).getLastD d
  | [], _ => rfl
  | b :: bs, r => by
    rw [List.getLast_cons (List.cons_ne_nil b bs), List.getLastD_cons]
    exact getLast_cons_eq_getLastD d bs b

theorem getLastD_mem {α : Type} (d : α) (r : α) (rs : List α) :
    (r :: rs).getLastD d ∈ r :: rs := by
  rw [← getLast_cons_eq_getLastD d rs r]
  exact List.getLast_mem _

theorem storeDataCmd_some (d : List TransferSrcData) (t s : BufferAllocator)
    (m : Nat → Nat) (h : (stageData d t s m).regions ≠ []) :
    storeDataCmd d t s m = some (storeResultOf d t s m) := by
  unfold storeDataCmd storeResultOf stagedBuffers stagedBarrier
  cases hreg : (stageData d t s m).regions with
  | nil => exact absurd hreg h
  | cons r0 rs =>
    simp only [hreg]
    rw [getLast_cons_eq_getLastD default rs r0]
    rfl

theorem storeResultOf_cmds (d : List TransferSrcData) (t s : BufferAllocator)
    (m : Nat → Nat) :
    (storeResultOf d t s m).cmds =
      [Cmd.copyBuffer (stageData d t s m).transient.mBuffer
          (stageData d t s m).target.mBuffer (stageData d t s m).regions,
        Cmd.pipelineBarrier [stagedBarrier d t s m]] := rfl

theorem storeResultOf_resultBuffers (d : List TransferSrcData)
    (t s : BufferAllocator) (m : Nat → Nat) :
    (storeResultOf d t s m).resultBuffers = stagedBuffers d t s m := rfl

/-- Claim C2: for every run whose staged copy-region list is non-empty,
`storeDataCmd` records (after the buffer-to-buffer copy) exactly one buffer
memory barrier, with source access mask transfer-write, destination access
mask shader-read, both queue-family indices `VK_QUEUE_FAMILY_IGNORED` (no
queue-family ownership transfer), on the destination allocator's buffer,
whose byte span is `[firstRegion.dstOffset, lastRegion.dstOffset +
lastRegion.size)`. -/
theorem claim_C2 (d : List TransferSrcData) (t s : BufferAllocator) (m : Nat → Nat)
    (h : (stageData d t s m).regions ≠ []) :
    ∃ out : StoreResult, storeDataCmd d t s m = some out ∧
      out.cmds = [Cmd.copyBuffer s.mBuffer t.mBuffer (stageData d t s m).regions,
        Cmd.pipelineBarrier
          [{ srcAccessMask := AccessFlagBits.eTransferWrite,
             dstAccessMask := AccessFlagBits.eShaderRead,
             srcQueueFamilyIndex := VK_QUEUE_FAMILY_IGNORED,
             dstQueueFamilyIndex := VK_QUEUE_FAMILY_IGNORED,
             buffer := t.mBuffer,
             offset := ((stageData d t s m).regions.headD default).dstOffset,
             size := ((stageData d t s m).regions.getLastD default).dstOffset +
               ((stageData d t s m).regions.getLastD default).size -
               ((stageData d t s m).regions.headD default).dstOffset }]] ∧
      ((stageData d t s m).regions.headD default).dstOffset ≤
        ((stageData d t s m).regions.getLastD default).dstOffset +
          ((stageData d t s m).regions.getLastD default).size := by
  refine ⟨storeResultOf d t s m, storeDataCmd_some d t s m h, ?_, ?_⟩
  · rw [storeResultOf_cmds]
    unfold stagedBarrier
    rw [stageData_target_mBuffer, stageData_transient_mBuffer]
  · obtain ⟨hbound, hhead⟩ := stageData_dst_bound d t s m
    cases hreg : (stageData d t s m).regions with
    | nil => exact absurd hreg h
    | cons r0 rs =>
      have hmem : (r0 :: rs).getLastD default ∈ r0 :: rs := getLastD_mem default r0 rs
      have hb := hbound _ (hreg ▸ hmem)
      rw [hreg] at hb
      have hh := hhead h
      rw [hreg] at hh
      omega

theorem zipWith_getD {α β γ : Type} (f : α → β → γ) :
    ∀ (as : List α) (bs : List β) (i : Nat) (dc : γ) (da : α) (db : β),
      i < as.length → i < bs.length →
      (List.zipWith f as bs).getD i dc = f (as.getD i da) (bs.getD i db)
  | [], _, i, _, _, _, h, _ => absurd h (Nat.not_lt_zero i)
  | _ :: _, [], i, _, _, _, _, h => absurd h (Nat.not_lt_zero i)
  | _ :: _, _ :: _, 0, _, _, _, _, _ => rfl
  | _ :: as, _ :: bs, i + 1, dc, da, db, ha, hb =>
    zipWith_getD f as bs i dc da db (Nat.lt_of_succ_lt_succ ha) (Nat.lt_of_succ_lt_succ hb)

theorem stageData_region_size : ∀ (l : List TransferSrcData) (t s : BufferAllocator)
    (m : Nat → Nat),
    (stageData l t s m).regions.length ≤ l.length ∧
    ∀ i, i < (stageData l t s m).regions.length →
      ((stageData l t s m).regions.getD i default).size =
        (l.getD i default).numBytesPerElement * (l.getD i default).numElements := by
  intro l
  induction l with
  | nil =>
    intro t s m
    exact ⟨Nat.le_refl 0, fun i hi => absurd hi (Nat.not_lt_zero i)⟩
  | cons x xs ih =>
    intro t s m
    by_cases h1 : (allocate t (x.numBytesPerElement * x.numElements)).success = true
    · by_cases h2 : (allocate s (x.numBytesPerElement * x.numElements)).success = true
      · by_cases h3 :
            (map (allocate s (x.numBytesPerElement * x.numElements)).state).fst = true
        · rw [stageData_cons_success x xs t s m h1 h2 h3]
          obtain ⟨ihlen, ihsize⟩ :=
            ih (allocate t (x.numBytesPerElement * x.numElements)).state
              (allocate s (x.numBytesPerElement * x.numElements)).state
              (writeBytes m
                (map (allocate s (x.numBytesPerElement * x.numElements)).state).snd
                x.pData (x.numBytesPerElement * x.numElements))
          refine ⟨Nat.succ_le_succ ihlen, ?_⟩
          intro i hi
          cases i with
          | zero => rfl
          | succ i => exact ihsize i (Nat.lt_of_succ_lt_succ hi)
        · rw [Bool.not_eq_true] at h3
          rw [stageData_cons_fail3 x xs t s m h1 h2 h3]
          exact ⟨Nat.zero_le _, fun i hi => absurd hi (Nat.not_lt_zero i)⟩
      · rw [Bool.not_eq_true] at h2
        rw [stageData_cons_fail2 x xs t s m h1 h2]
        exact ⟨Nat.zero_le _, fun i hi => absurd hi (Nat.not_lt_zero i)⟩
    · rw [Bool.not_eq_true] at h1
      rw [stageData_cons_fail1 x xs t s m h1]
      exact ⟨Nat.zero_le _, fun i hi => absurd hi (Nat.not_lt_zero i)⟩

/-- Claim C7 (amended: restricted to non-empty item lists; on the empty list
all zero items stage successfully vacuously, yet `storeDataCmd` hits the
empty-vector `front()`/`back()` undefined behavior and returns no descriptor
list at all): when every item of a non-empty list stages successfully,
`storeDataCmd` returns one descriptor per item, whose buffer is the
destination allocator's buffer, whose offset is the i-th copy-region's
destination offset, whose range is the i-th copy-region's size (equal to the
item's element count times its bytes-per-element), and whose element count is
the i-th item's element count. -/
theorem claim_C7 (d : List TransferSrcData) (t s : BufferAllocator) (m : Nat → Nat)
    (hne : d ≠ []) (hlen : (stageData d t s m).regions.length = d.length) :
    ∃ out : StoreResult, storeDataCmd d t s m = some out ∧
      out.resultBuffers.length = d.length ∧
      ∀ i, i < d.length →
        (out.resultBuffers.getD i default).buffer = t.mBuffer ∧
        (out.resultBuffers.getD i default).offset =
          ((stageData d t s m).regions.getD i default).dstOffset ∧
        (out.resultBuffers.getD i default).range =
          ((stageData d t s m).regions.getD i default).size ∧
        ((stageData d t s m).regions.getD i default).size =
          (d.getD i default).numElements * (d.getD i default).numBytesPerElement ∧
        (out.resultBuffers.getD i default).numElements =
          (d.getD i default).numElements := by
  have hne' : (stageData d t s m).regions ≠ [] := by
    intro hnil
    rw [hnil] at hlen
    exact hne (List.length_eq_zero.mp hlen.symm)
  refine ⟨storeResultOf d t s m, storeDataCmd_some d t s m hne', ?_, ?_⟩
  · rw [storeResultOf_resultBuffers]
    unfold stagedBuffers
    rw [List.length_zipWith, hlen, Nat.min_self]
  · intro i hi
    have hi' : i < (stageData d t s m).regions.length := by rw [hlen]; exact hi
    have hget : (stagedBuffers d t s m).getD i default =
        { buffer := (stageData d t s m).target.mBuffer,
          offset := ((stageData d t s m).regions.getD i default).dstOffset,
          range := ((stageData d t s m).regions.getD i default).size,
          numElements := (d.getD i default).numElements } := by
      unfold stagedBuffers
      exact zipWith_getD _ _ _ i default default default hi' hi
    rw [storeResultOf_resultBuffers, hget]
    obtain ⟨-, hsize⟩ := stageData_region_size d t s m
    refine ⟨stageData_target_mBuffer d t s m, rfl, rfl, ?_, rfl⟩
    rw [hsize i hi']
    exact Nat.mul_comm _ _

/-- Claim C7 counterexample: on the empty item list (all of whose zero items
stage successfully, vacuously) `storeDataCmd` returns no descriptor list at
all — it hits the empty-vector `front()`/`back()` undefined behavior,
modelled `none` — rather than the empty per-item descriptor sequence the
unrestricted claim implies. -/
theorem claim_C7_counterexample :
    storeDataCmd [] (setup ⟨1024, 1, false⟩ 0) (setup ⟨1024, 1, true⟩ 1) (fun _ => 0) =
      none ∧
    (stageData [] (setup ⟨1024, 1, false⟩ 0) (setup ⟨1024, 1, true⟩ 1)
        (fun _ => 0)).regions.length = ([] : List TransferSrcData).length :=
  ⟨rfl, rfl⟩

/-- Witness for C7 at a concrete input (two items of 4 and 8 one-byte
elements, both staged successfully). -/
theorem claim_C7_witness :
    (stageData [⟨fun j => j + 10, 4, 1⟩, ⟨fun j => 2 * j, 8, 1⟩]
        (setup ⟨1024, 1, false⟩ 0) (setup ⟨1024, 1, true⟩ 1) (fun _ => 0)).regions.length =
      ([(⟨fun j => j + 10, 4, 1⟩ : TransferSrcData), ⟨fun j => 2 * j, 8, 1⟩] :
        List TransferSrcData).length ∧
    ∃ out : StoreResult,
      storeDataCmd [⟨fun j => j + 10, 4, 1⟩, ⟨fun j => 2 * j, 8, 1⟩]
        (setup ⟨1024, 1, false⟩ 0) (setup ⟨1024, 1, true⟩ 1) (fun _ => 0) = some out ∧
      out.resultBuffers.length = 2 ∧
      (out.resultBuffers.getD 1 default).numElements = 8 := by
  have h := claim_C7 [⟨fun j => j + 10, 4, 1⟩, ⟨fun j => 2 * j, 8, 1⟩]
    (setup ⟨1024, 1, false⟩ 0) (setup ⟨1024, 1, true⟩ 1) (fun _ => 0)
    (List.cons_ne_nil _ _) (by decide)
  refine ⟨by decide, ?_⟩
  obtain ⟨out, ho, hl, hc⟩ := h
  exact ⟨out, ho, hl.trans rfl, ((hc 1 (by decide)).2.2.2.2).trans rfl⟩

/-- Witness for C2 at a concrete input (two successfully staged items). -/
theorem claim_C2_witness :
    (stageData [⟨fun j => j + 10, 4, 1⟩, ⟨fun j => 2 * j, 8, 1⟩]
        (setup ⟨1024, 1, false⟩ 0) (setup ⟨1024, 1, true⟩ 1) (fun _ => 0)).regions ≠ [] ∧
    ∃ out : StoreResult,
      storeDataCmd [⟨fun j => j + 10, 4, 1⟩, ⟨fun j => 2 * j, 8, 1⟩]
        (setup ⟨1024, 1, false⟩ 0) (setup ⟨1024, 1, true⟩ 1) (fun _ => 0) = some out ∧
      ((stageData [⟨fun j => j + 10, 4, 1⟩, ⟨fun j => 2 * j, 8, 1⟩]
          (setup ⟨1024, 1, false⟩ 0) (setup ⟨1024, 1, true⟩ 1)
          (fun _ => 0)).regions.headD default).dstOffset ≤
        ((stageData [⟨fun j => j + 10, 4, 1⟩, ⟨fun j => 2 * j, 8, 1⟩]
            (setup ⟨1024, 1, false⟩ 0) (setup ⟨1024, 1, true⟩ 1)
            (fun _ => 0)).regions.getLastD default).dstOffset +
          ((stageData [⟨fun j => j + 10, 4, 1⟩, ⟨fun j => 2 * j, 8, 1⟩]
              (setup ⟨1024, 1, false⟩ 0) (setup ⟨1024, 1, true⟩ 1)
              (fun _ => 0)).regions.getLastD default).size := by
  have h := claim_C2 [⟨fun j => j + 10, 4, 1⟩, ⟨fun j => 2 * j, 8, 1⟩]
    (setup ⟨1024, 1, false⟩ 0) (setup ⟨1024, 1, true⟩ 1) (fun _ => 0) (by decide)
  exact ⟨by decide, h.imp fun out ho => ⟨ho.1, ho.2.2⟩⟩

theorem allocAll_spec : ∀ (ns : List Nat) (a : BufferAllocator) (offs : List Nat)
    (a' : BufferAllocator),
    a.mCurrentVirtualFrameIdx < a.mOffsetEnd.length → 0 < a.mAlignment →
    allocAll a ns = some (offs, a') →
    (∀ o ∈ offs, base a + cursor a ≤ o) ∧
    List.Pairwise (· < ·) offs ∧
    List.Pairwise (fun p q => p.1 + p.2 ≤ q.1)
      (offs.zip (ns.map fun n => roundUpAlign n a.mAlignment)) ∧
    (∀ o ∈ offs, o % a.mAlignment = (base a + cursor a) % a.mAlignment) := by
  intro ns
  induction ns with
  | nil =>
    intro a offs a' hidx halign h
    simp only [allocAll, Option.some.injEq, Prod.mk.injEq] at h
    obtain ⟨h1, -⟩ := h
    subst h1
    exact ⟨fun o ho => absurd ho (List.not_mem_nil o), List.Pairwise.nil,
      by simp, fun o ho => absurd ho (List.not_mem_nil o)⟩
  | cons n ns ih =>
    intro a offs a' hidx halign h
    by_cases hsucc : (allocate a n).success = true
    · simp only [allocAll, hsucc, if_true] at h
      cases hrec : allocAll (allocate a n).state ns with
      | none =>
        rw [hrec] at h
        exact absurd h (by simp)
      | some p =>
        obtain ⟨offs', a''⟩ := p
        rw [hrec] at h
        simp only [Option.some.injEq, Prod.mk.injEq] at h
        obtain ⟨h1, -⟩ := h
        subst h1
        have heq := allocate_of_success a n hsucc
        have hoffv : (allocate a n).offset = base a + cursor a := by rw [heq]
        have hstate : (allocate a n).state =
            advance a (roundUpAlign n a.mAlignment) := by rw [heq]
        have hidx' : (allocate a n).state.mCurrentVirtualFrameIdx <
            (allocate a n).state.mOffsetEnd.length := by
          rw [allocate_state_idx, allocate_state_length]
          exact hidx
        have halign' : 0 < (allocate a n).state.mAlignment := by
          rw [allocate_state_mAlignment]
          exact halign
        have IH := ih (allocate a n).state offs' a'' hidx' halign' hrec
        have hbase' : base (allocate a n).state = base a := base_allocate a n
        have hcur' : cursor (allocate a n).state =
            cursor a + roundUpAlign n a.mAlignment := by
          rw [hstate]
          exact cursor_advance a _ hidx
        rw [hbase', hcur', allocate_state_mAlignment] at IH
        obtain ⟨IH1, IH2, IH3, IH4⟩ := IH
        have hn0 : n ≠ 0 := ((allocate_success_iff a n).1 hsucc).1
        have hrd1 : 1 ≤ roundUpAlign n a.mAlignment :=
          Nat.le_trans (by omega) (roundUpAlign_ge n a.mAlignment halign)
        refine ⟨?_, ?_, ?_, ?_⟩
        · intro o ho
          rcases List.mem_cons.1 ho with rfl | ho'
          · rw [hoffv]
          · have := IH1 o ho'
            omega
        · rw [hoffv]
          exact List.pairwise_cons.2
            ⟨fun o ho => by have := IH1 o ho; omega, IH2⟩
        · rw [hoffv]
          show List.Pairwise _
            (((base a + cursor a) :: offs').zip
              (roundUpAlign n a.mAlignment :: ns.map fun k => roundUpAlign k a.mAlignment))
          rw [List.zip_cons_cons]
          refine List.pairwise_cons.2 ⟨?_, IH3⟩
          intro p hp
          have hp1 : p.1 ∈ offs' := (List.of_mem_zip hp).1
          have := IH1 p.1 hp1
          show base a + cursor a + roundUpAlign n a.mAlignment ≤ p.1
          omega
        · intro o ho
          rcases List.mem_cons.1 ho with rfl | ho'
          · rw [hoffv]
          · rw [IH4 o ho']
            obtain ⟨q, hq⟩ := roundUpAlign_dvd n a.mAlignment
            rw [hq, ← Nat.add_assoc, Nat.add_mul_mod_self_left]
    · rw [Bool.not_eq_true] at hsucc
      simp only [allocAll, hsucc] at h
      exact absurd h (by simp)

/-- Claim C4 (amended: strict increase and non-overlap hold as claimed, but
every returned offset is only congruent to `slot base + starting cursor`
modulo the alignment — offsets are multiples of the alignment exactly when
that quantity is, e.g. in slot 0 from a fresh cursor, or whenever the slot
size is divisible by the alignment; a slot whose base is not a multiple of
the alignment yields non-multiple offsets): for every sequence of successful
`allocate` calls within one active slot (no intervening swap), the returned
offsets are strictly increasing, the reserved ranges
`[offset, offset + roundedSize)` never overlap, and each offset is congruent
to the slot base plus the starting cursor modulo the configured alignment. -/
theorem claim_C4 (a : BufferAllocator) (ns offs : List Nat) (a' : BufferAllocator)
    (hidx : a.mCurrentVirtualFrameIdx < a.mOffsetEnd.length)
    (halign : 0 < a.mAlignment)
    (h : allocAll a ns = some (offs, a')) :
    List.Pairwise (· < ·) offs ∧
    List.Pairwise (fun p q => p.1 + p.2 ≤ q.1)
      (offs.zip (ns.map fun n => roundUpAlign n a.mAlignment)) ∧
    ∀ o ∈ offs, o % a.mAlignment = (base a + cursor a) % a.mAlignment := by
  obtain ⟨-, h2, h3, h4⟩ := allocAll_spec ns a offs a' hidx halign h
  exact ⟨h2, h3, h4⟩

/-- Claim C4 counterexample: a 1000-byte, two-frame reservation has 500-byte
slots; after one swap the active slot's base is 500, and a successful
allocation there returns offset 500, which is not a multiple of the
configured alignment 256. -/
theorem claim_C4_counterexample :
    (allocAll (swap (setup ⟨1000, 2, true⟩ 0)) [100]).map Prod.fst = some [500] ∧
    (swap (setup ⟨1000, 2, true⟩ 0)).mAlignment = 256 ∧
    ¬ (500 % 256 = 0) := by decide

/-- Witness for C4 at a concrete input (fresh 1024-byte two-frame allocator,
two 100-byte requests, offsets 0 and 256). -/
theorem claim_C4_witness :
    List.Pairwise (· < ·) [0, 256] ∧
    List.Pairwise (fun p q => p.1 + p.2 ≤ q.1)
      (([0, 256] : List Nat).zip
        (([100, 100] : List Nat).map fun n =>
          roundUpAlign n (setup ⟨1024, 2, true⟩ 0).mAlignment)) ∧
    ∀ o ∈ ([0, 256] : List Nat),
      o % (setup ⟨1024, 2, true⟩ 0).mAlignment =
        (base (setup ⟨1024, 2, true⟩ 0) + cursor (setup ⟨1024, 2, true⟩ 0)) %
          (setup ⟨1024, 2, true⟩ 0).mAlignment :=
  claim_C4 (setup ⟨1024, 2, true⟩ 0) [100, 100] [0, 256]
    { settings := ⟨1024, 2, true⟩, mAlignment := 256, mBuffer := 0,
      mOffsetEnd := [512, 0], mCurrentMappedAddress := some 256,
      mCurrentVirtualFrameIdx := 0 }
    (by decide) (by decide) (by decide)

theorem staging_map_addr (s : BufferAllocator) (n : Nat) (hmap : MappedInv s)
    (h2 : (allocate s n).success = true)
    (h3 : (map (allocate s n).state).fst = true) :
    s.settings.hostVisible = true ∧
    (map (allocate s n).state).snd = base s + cursor s ∧
    MappedInv (allocate s n).state := by
  have hstate := allocate_of_success s n h2
  cases hv : s.settings.hostVisible
  · exfalso
    rw [hstate] at h3
    simp only [map, advance, hv, Bool.false_eq_true, if_false] at h3
    have := hmap h3
    rw [this] at hv
    exact Bool.noConfusion hv
  · refine ⟨rfl, ?_, ?_⟩
    · rw [hstate]
      simp [map, advance, hv]
    · rw [hstate]
      unfold MappedInv
      intro _
      exact hv

theorem staging_step (s : BufferAllocator) (n : Nat)
    (hidx : s.mCurrentVirtualFrameIdx < s.mOffsetEnd.length)
    (halign : 0 < s.mAlignment) (hmap : MappedInv s)
    (h2 : (allocate s n).success = true)
    (h3 : (map (allocate s n).state).fst = true) :
    (allocate s n).state.mCurrentVirtualFrameIdx <
      (allocate s n).state.mOffsetEnd.length ∧
    0 < (allocate s n).state.mAlignment ∧
    MappedInv (allocate s n).state ∧
    (map (allocate s n).state).snd = base s + cursor s ∧
    base (allocate s n).state = base s ∧
    cursor (allocate s n).state = cursor s + roundUpAlign n s.mAlignment ∧
    (allocate s n).offset = base s + cursor s := by
  obtain ⟨-, haddr, hmap'⟩ := staging_map_addr s n hmap h2 h3
  refine ⟨?_, ?_, hmap', haddr, base_allocate s n, ?_, ?_⟩
  · rw [allocate_state_idx, allocate_state_length]
    exact hidx
  · rw [allocate_state_mAlignment]
    exact halign
  · rw [allocate_of_success s n h2]
    exact cursor_advance s _ hidx
  · rw [allocate_of_success s n h2]

theorem stageData_mem_lt : ∀ (l : List TransferSrcData) (t s : BufferAllocator)
    (m : Nat → Nat) (addr : Nat),
    s.mCurrentVirtualFrameIdx < s.mOffsetEnd.length → 0 < s.mAlignment →
    MappedInv s → addr < base s + cursor s →
    (stageData l t s m).mem addr = m addr := by
  intro l
  induction l with
  | nil => intro t s m addr _ _ _ _; rfl
  | cons x xs ih =>
    intro t s m addr hidx halign hmap hlt
    by_cases h1 : (allocate t (x.numBytesPerElement * x.numElements)).success = true
    · by_cases h2 : (allocate s (x.numBytesPerElement * x.numElements)).success = true
      · by_cases h3 :
            (map (allocate s (x.numBytesPerElement * x.numElements)).state).fst = true
        · rw [stageData_cons_success x xs t s m h1 h2 h3]
          obtain ⟨hidx', halign', hmap', haddr, hbase', hcur', -⟩ :=
            staging_step s (x.numBytesPerElement * x.numElements) hidx halign hmap h2 h3
          show (stageData xs _ _ _).mem addr = m addr
          rw [ih _ _ _ addr hidx' halign' hmap' (by rw [hbase', hcur']; omega)]
          simp only [writeBytes]
          rw [haddr, if_neg (by omega)]
        · rw [Bool.not_eq_true] at h3
          rw [stageData_cons_fail3 x xs t s m h1 h2 h3]
      · rw [Bool.not_eq_true] at h2
        rw [stageData_cons_fail2 x xs t s m h1 h2]
    · rw [Bool.not_eq_true] at h1
      rw [stageData_cons_fail1 x xs t s m h1]

theorem stageData_content : ∀ (l : List TransferSrcData) (t s : BufferAllocator)
    (m : Nat → Nat),
    s.mCurrentVirtualFrameIdx < s.mOffsetEnd.length → 0 < s.mAlignment →
    MappedInv s →
    (∀ r ∈ (stageData l t s m).regions, base s + cursor s ≤ r.srcOffset) ∧
    List.Pairwise (fun r q => r.srcOffset + r.size ≤ q.srcOffset)
      (stageData l t s m).regions ∧
    ∀ i, i < (stageData l t s m).regions.length →
      ∀ j, j < ((stageData l t s m).regions.getD i default).size →
        (stageData l t s m).mem
            (((stageData l t s m).regions.getD i default).srcOffset + j) =
          (l.getD i default).pData j := by
  intro l
  induction l with
  | nil =>
    intro t s m _ _ _
    exact ⟨fun r hr => absurd hr (List.not_mem_nil r), List.Pairwise.nil,
      fun i hi => absurd hi (Nat.not_lt_zero i)⟩
  | cons x xs ih =>
    intro t s m hidx halign hmap
    by_cases h1 : (allocate t (x.numBytesPerElement * x.numElements)).success = true
    · by_cases h2 : (allocate s (x.numBytesPerElement * x.numElements)).success = true
      · by_cases h3 :
            (map (allocate s (x.numBytesPerElement * x.numElements)).state).fst = true
        · rw [stageData_cons_success x xs t s m h1 h2 h3]
          obtain ⟨hidx', halign', hmap', haddr, hbase', hcur', hsrc0⟩ :=
            staging_step s (x.numBytesPerElement * x.numElements) hidx halign hmap h2 h3
          have hszrd : x.numBytesPerElement * x.numElements ≤
              roundUpAlign (x.numBytesPerElement * x.numElements) s.mAlignment :=
            roundUpAlign_ge _ _ halign
          obtain ⟨IH1, IH2, IH3⟩ := ih (allocate t (x.numBytesPerElement * x.numElements)).state
            (allocate s (x.numBytesPerElement * x.numElements)).state
            (writeBytes m (map (allocate s (x.numBytesPerElement * x.numElements)).state).snd
              x.pData (x.numBytesPerElement * x.numElements)) hidx' halign' hmap'
          rw [hbase', hcur'] at IH1
          refine ⟨?_, ?_, ?_⟩
          · intro r hr
            rcases List.mem_cons.1 hr with rfl | hr'
            · show base s + cursor s ≤
                (allocate s (x.numBytesPerElement * x.numElements)).offset
              rw [hsrc0]
            · have := IH1 r hr'
              omega
          · refine List.pairwise_cons.2 ⟨?_, IH2⟩
            intro q hq
            have := IH1 q hq
            show (allocate s (x.numBytesPerElement * x.numElements)).offset +
              (x.numBytesPerElement * x.numElements) ≤ q.srcOffset
            rw [hsrc0]
            omega
          · intro i hi j hj
            cases i with
            | zero =>
              have hj' : j < x.numBytesPerElement * x.numElements := hj
              show (stageData xs _ _ _).mem
                  ((allocate s (x.numBytesPerElement * x.numElements)).offset + j) =
                x.pData j
              rw [hsrc0,
                stageData_mem_lt xs _ _ _ _ hidx' halign' hmap'
                  (by rw [hbase', hcur']; omega)]
              simp only [writeBytes]
              rw [haddr, if_pos (by omega), Nat.add_sub_cancel_left]
            | succ i =>
              exact IH3 i (Nat.lt_of_succ_lt_succ hi) j hj
        · rw [Bool.not_eq_true] at h3
          rw [stageData_cons_fail3 x xs t s m h1 h2 h3]
          exact ⟨fun r hr => absurd hr (List.not_mem_nil r), List.Pairwise.nil,
            fun i hi => absurd hi (Nat.not_lt_zero i)⟩
      · rw [Bool.not_eq_true] at h2
        rw [stageData_cons_fail2 x xs t s m h1 h2]
        exact ⟨fun r hr => absurd hr (List.not_mem_nil r), List.Pairwise.nil,
          fun i hi => absurd hi (Nat.not_lt_zero i)⟩
    · rw [Bool.not_eq_true] at h1
      rw [stageData_cons_fail1 x xs t s m h1]
      exact ⟨fun r hr => absurd hr (List.not_mem_nil r), List.Pairwise.nil,
        fun i hi => absurd hi (Nat.not_lt_zero i)⟩

/-- Claim C8: for every item successfully processed by `stageData`, the item's
bytes end up in the staging memory at the address `mapped base + srcOffset`
of that item's staging allocation (the reservation's host mapping is modelled
at base address 0, so byte `j` of staged item `i` sits at address
`srcOffset_i + j`), and distinct staged items occupy pairwise disjoint
staging byte ranges. -/
theorem claim_C8 (l : List TransferSrcData) (t s : BufferAllocator) (m : Nat → Nat)
    (hidx : s.mCurrentVirtualFrameIdx < s.mOffsetEnd.length)
    (halign : 0 < s.mAlignment) (hmap : MappedInv s) :
    (∀ i, i < (stageData l t s m).regions.length →
      ∀ j, j < ((stageData l t s m).regions.getD i default).size →
        (stageData l t s m).mem
            (((stageData l t s m).regions.getD i default).srcOffset + j) =
          (l.getD i default).pData j) ∧
    List.Pairwise (fun r q => r.srcOffset + r.size ≤ q.srcOffset)
      (stageData l t s m).regions := by
  obtain ⟨-, h2, h3⟩ := stageData_content l t s m hidx halign hmap
  exact ⟨h3, h2⟩

/-- Witness for C8 at a concrete input: byte 3 of the second staged item is
found in the final staging memory at its region's `srcOffset + 3`. -/
theorem claim_C8_witness :
    MappedInv (setup ⟨1024, 1, true⟩ 1) ∧
    (stageData [⟨fun j => j + 10, 4, 1⟩, ⟨fun j => 2 * j, 8, 1⟩]
        (setup ⟨1024, 1, false⟩ 0) (setup ⟨1024, 1, true⟩ 1) (fun _ => 0)).mem
        (((stageData [⟨fun j => j + 10, 4, 1⟩, ⟨fun j => 2 * j, 8, 1⟩]
            (setup ⟨1024, 1, false⟩ 0) (setup ⟨1024, 1, true⟩ 1)
            (fun _ => 0)).regions.getD 1 default).srcOffset + 3) =
      (([(⟨fun j => j + 10, 4, 1⟩ : TransferSrcData), ⟨fun j => 2 * j, 8, 1⟩] :
        List TransferSrcData).getD 1 default).pData 3 := by
  refine ⟨by decide, ?_⟩
  exact (claim_C8 [⟨fun j => j + 10, 4, 1⟩, ⟨fun j => 2 * j, 8, 1⟩]
    (setup ⟨1024, 1, false⟩ 0) (setup ⟨1024, 1, true⟩ 1) (fun _ => 0)
    (by decide) (by decide) (by decide)).1 1 (by decide) 3 (by decide)

end Vk
